import Mathlib

/-!
Verification of `src/main.py`, a small FastAPI health service.

Shallow embedding conventions:
- Python floats are modelled as `ℚ`, Python ints as `ℤ` (HTTP status codes
  and the fixed sleep scores as `ℕ`).
- `raise HTTPException(status_code, detail)` is modelled by returning
  `Except.error ⟨status_code, detail⟩` from the handler.
- Python `round(x, 2)` (round half to even at two decimal places) is
  modelled exactly over `ℚ` by `round2`.
- The two outbound HTTP calls are modelled by an explicit parameter
  describing the outcome of the call (timeout, transport error, or a
  parsed JSON body), since the network is outside the program.  The
  bodies of the `try` blocks are modelled as `Except PyExc`-valued
  functions and the `except` clauses as a match on the raised exception,
  in the order the clauses appear in the source.
-/

namespace HealthApp

/-- Result of Python `round(q, 2)`: round half to even at two decimal
places, over `ℚ`. -/
def round2 (q : ℚ) : ℚ :=
  let x : ℚ := 100 * q
  let f : ℤ := ⌊x⌋
  let r : ℚ := x - (f : ℚ)
  let n : ℤ :=
    if r < 1/2 then f
    else if 1/2 < r then f + 1
    else if f % 2 = 0 then f else f + 1
  (n : ℚ) / 100

/-- The error carried by a raised `HTTPException`. -/
structure HTTPError where
  status_code : ℕ
  detail : String
deriving DecidableEq

/-- Response payload of `GET /bmi`. -/
structure BmiOut where
  bmi : ℚ
deriving DecidableEq

/-- Response payload of `GET /calories`. -/
structure CaloriesOut where
  calories_burned : ℚ
deriving DecidableEq

/-- Response payload of `GET /hydration`. -/
structure HydrationOut where
  status : String
  advice : String
deriving DecidableEq

/-- Response payload of `GET /sleep-score`. -/
structure SleepOut where
  score : ℕ
  status : String
deriving DecidableEq

/-- Handler of `GET /bmi` (`calculate_bmi` in `src/main.py`): rejects a
nonpositive weight or height with a 400, converts a height above 10 from
centimeters to meters, and returns `round(weight / height ** 2, 2)`. -/
def calculate_bmi (weight height : ℚ) : Except HTTPError BmiOut :=
  if height ≤ 0 ∨ weight ≤ 0 then
    .error ⟨400, "Weight and height must be greater than zero."⟩
  else
    let height := if height > 10 then height / 100 else height
    .ok ⟨round2 (weight / height ^ 2)⟩

/-- The fixed MET table `met_values` of `calculate_calories`, as the
`dict.get` lookup used by the source: `none` for unknown levels. -/
def met_values (activity_level : String) : Option ℚ :=
  if activity_level = "light" then some 3.5
  else if activity_level = "moderate" then some 5.0
  else if activity_level = "vigorous" then some 8.0
  else none

/-- Handler of `GET /calories` (`calculate_calories` in `src/main.py`).
The Python guard `if not met` is true when the lookup returned `None` or
the value `0.0`, so both cases are modelled. -/
def calculate_calories (weight duration : ℚ) (activity_level : String) :
    Except HTTPError CaloriesOut :=
  if duration ≤ 0 ∨ weight ≤ 0 then
    .error ⟨400, "Weight and duration must be greater than zero."⟩
  else
    match met_values activity_level with
    | none =>
        .error ⟨400, "Invalid activity level. Choose from light, moderate, or vigorous."⟩
    | some met =>
        if met = 0 then
          .error ⟨400, "Invalid activity level. Choose from light, moderate, or vigorous."⟩
        else
          .ok ⟨round2 (met * weight * duration / 60)⟩

/-- Handler of `GET /hydration` (`check_hydration` in `src/main.py`): a
total three-way threshold map with no input validation. -/
def check_hydration (water_ml : ℤ) : HydrationOut :=
  if water_ml < 2000 then
    ⟨"Drink more water!", "Aim for at least 2 liters per day."⟩
  else if 2000 ≤ water_ml ∧ water_ml ≤ 3000 then
    ⟨"You're well hydrated!", "Maintain this level of hydration."⟩
  else
    ⟨"Too much water!", "Avoid overhydration."⟩

/-- Handler of `GET /sleep-score` (`sleep_score` in `src/main.py`): a
total three-way threshold map with no input validation. -/
def sleep_score (hours : ℚ) : SleepOut :=
  if hours < 6 then ⟨50, "Too little sleep"⟩
  else if 6 ≤ hours ∧ hours ≤ 8 then ⟨90, "Healthy sleep"⟩
  else ⟨70, "Too much sleep"⟩

/-- A minimal JSON value, for the bodies returned by the two upstream
APIs. -/
inductive Json where
  | null
  | bool (b : Bool)
  | num (q : ℚ)
  | str (s : String)
  | arr (elems : List Json)
  | obj (fields : List (String × Json))

/-- Lookup of a key in a JSON object's field list (Python `data[k]` /
`data.get(k)` on a dict). -/
def lookupField : List (String × Json) → String → Option Json
  | [], _ => none
  | (k, v) :: rest, key => if k = key then some v else lookupField rest key

/-- Python `data.get(k)` / `"k" in data`: `none` when `data` is not an
object or lacks the key. -/
def Json.get? : Json → String → Option Json
  | .obj fields, key => lookupField fields key
  | _, _ => none

/-- Python `data[i]` on a list: `none` when `data` is not an array or the
index is out of range. -/
def Json.idx? : Json → ℕ → Option Json
  | .arr elems, i => elems.get? i
  | _, _ => none

/-- Python truthiness of a JSON value (used by `if not choices`). -/
def Json.falsy : Json → Bool
  | .null => true
  | .bool b => !b
  | .num q => decide (q = 0)
  | .str s => decide (s = "")
  | .arr elems => elems.isEmpty
  | .obj fields => fields.isEmpty

/-- Python truthiness of an optional JSON value: `None` is falsy. -/
def optFalsy : Option Json → Bool
  | none => true
  | some j => j.falsy

/-- The Python exceptions that can cross the `try` blocks of the two
proxy handlers. `httpExc` is an `HTTPException` raised inside the `try`
block; `lookupErr` stands for `KeyError` / `IndexError` / `TypeError` /
`AttributeError` raised by an indexing or attribute access. -/
inductive PyExc where
  | httpExc (status_code : ℕ) (detail : String)
  | timeoutExc
  | requestExc (msg : String)
  | lookupErr
  | authenticationError
  | openAIError (msg : String)

/-- Python `str(e)` for the exceptions above.  For `HTTPException`,
starlette defines `__str__` as `f"{self.status_code}: {self.detail}"`. -/
def pyStr : PyExc → String
  | .httpExc code detail => Nat.repr code ++ ": " ++ detail
  | .timeoutExc => "timed out"
  | .requestExc m => m
  | .lookupErr => "lookup error"
  | .authenticationError => "authentication error"
  | .openAIError m => m

/-- Detail of the shape-check `HTTPException` raised in `get_weather`. -/
def weatherShapeDetail : String := "Unexpected response format from OpenWeather API."

/-- Detail of the shape-check `HTTPException` raised in `ask_openai`. -/
def openaiShapeDetail : String := "Unexpected response format from OpenAI API."

/-- Response payload of `GET /weather`. -/
structure WeatherOut where
  city : String
  temperature : Json
  description : Json

/-- Outcome of the single outbound call made by `get_weather`
(`requests.get` plus `raise_for_status` plus `.json()`): a timeout, some
other `RequestException` (connection error, HTTP error status, JSON
decode error), or a parsed body. -/
inductive UpstreamResult where
  | timeout
  | requestError (msg : String)
  | success (data : Json)

/-- Body of the `try` block of `get_weather` in `src/main.py`: checks
that `"main"` and `"weather"` are present, then extracts
`data["main"]["temp"]` and `data["weather"][0]["description"]`. -/
def get_weather_try (city : String) (u : UpstreamResult) :
    Except PyExc WeatherOut :=
  match u with
  | .timeout => .error .timeoutExc
  | .requestError m => .error (.requestExc m)
  | .success data =>
    if (data.get? "main").isNone || (data.get? "weather").isNone then
      .error (.httpExc 500 weatherShapeDetail)
    else
      match (data.get? "main").bind (fun m => m.get? "temp"),
            ((data.get? "weather").bind (fun w => w.idx? 0)).bind
              (fun w0 => w0.get? "description") with
      | some temp, some desc => .ok ⟨city, temp, desc⟩
      | _, _ => .error .lookupErr

/-- Handler of `GET /weather` (`get_weather` in `src/main.py`): the
missing-key guard, then the `try` block with its `except` clauses in
source order (`Timeout`, then `RequestException`, then `Exception` —
the last one also catches the `HTTPException` raised by the shape
check, since `HTTPException` subclasses `Exception`). -/
def get_weather (apiKey : Option String) (city : String)
    (u : UpstreamResult) : Except HTTPError WeatherOut :=
  if apiKey.getD "" = "" then
    .error ⟨500, "Missing OpenWeather API key."⟩
  else
    match get_weather_try city u with
    | .ok v => .ok v
    | .error .timeoutExc =>
        .error ⟨504, "OpenWeather API request timed out."⟩
    | .error (.requestExc m) => .error ⟨502, "Bad Gateway: " ++ m⟩
    | .error e => .error ⟨500, "Internal Server Error: " ++ pyStr e⟩

/-- Response payload of `GET /ask-openai`. -/
structure AskOut where
  response : Json

/-- Outcome of the `openai.ChatCompletion.create` call made by
`ask_openai`: an authentication failure, some other `OpenAIError`, or a
response object. -/
inductive OpenAIResult where
  | authFailure
  | apiFailure (msg : String)
  | success (response : Json)

/-- Body of the `try` block of `ask_openai` in `src/main.py`: the guard
`if not choices or not choices[0].get("message")` followed by the
extraction `choices[0]["message"]["content"]`, with each indexing step
that Python would fault on mapped to `lookupErr`. -/
def ask_openai_try (request : String) (r : OpenAIResult) :
    Except PyExc AskOut :=
  match r with
  | .authFailure => .error .authenticationError
  | .apiFailure m => .error (.openAIError m)
  | .success resp =>
    let choices := resp.get? "choices"
    if optFalsy choices then
      .error (.httpExc 500 openaiShapeDetail)
    else
      match choices.bind (fun c => c.idx? 0) with
      | none => .error .lookupErr
      | some c0 =>
        match c0 with
        | .obj fields =>
          let msg := lookupField fields "message"
          if optFalsy msg then
            .error (.httpExc 500 openaiShapeDetail)
          else
            match msg.bind (fun m => m.get? "content") with
            | some content => .ok ⟨content⟩
            | none => .error .lookupErr
        | _ => .error .lookupErr

/-- Handler of `GET /ask-openai` (`ask_openai` in `src/main.py`): the
`try` block with its `except` clauses in source order
(`AuthenticationError`, then `OpenAIError`, then `Exception` — the last
one also catches the `HTTPException` raised by the shape check). -/
def ask_openai (request : String) (r : OpenAIResult) :
    Except HTTPError AskOut :=
  match ask_openai_try request r with
  | .ok v => .ok v
  | .error .authenticationError => .error ⟨401, "Invalid OpenAI API key."⟩
  | .error (.openAIError m) => .error ⟨502, "Bad Gateway: " ++ m⟩
  | .error e => .error ⟨500, "Internal Server Error: " ++ pyStr e⟩

/-- The module-level list `required_env_vars` of `src/main.py`. -/
def required_env_vars : List String := ["OPENWEATHER_KEY", "OPENAI_API_KEY"]

/-- The module-level comprehension building `missing_vars`: a variable is
missing when `os.getenv` returns `None` or an empty (falsy) string. -/
def missing_vars (env : String → Option String) : List String :=
  required_env_vars.filter (fun v => (env v).getD "" == "")

/-- The module-level startup validation of `src/main.py`: raises
`RuntimeError` naming the missing variables when `missing_vars` is
nonempty.  This runs at import time, before the app object and its
routes are created. -/
def startup_check (env : String → Option String) : Except String Unit :=
  if missing_vars env = [] then .ok ()
  else
    .error ("Missing required environment variables: " ++
      String.intercalate ", " (missing_vars env))

end HealthApp

namespace HealthApp

/-- Any MET value the table can return is positive (so the Python guard
`if not met` never fires on a successful lookup). -/
theorem met_values_pos {lvl : String} {met : ℚ}
    (h : met_values lvl = some met) : 0 < met := by
  unfold met_values at h
  split_ifs at h
  · injection h with h; subst h; norm_num
  · injection h with h; subst h; norm_num
  · injection h with h; subst h; norm_num

/-- C1: for weight > 0 and height > 10 the `/bmi` handler returns
`round(weight / (height/100)^2, 2)`, and for weight > 0 and height in
(0, 10] it returns `round(weight / height^2, 2)`. -/
theorem bmi_formula (w h : ℚ) :
    (0 < w → 10 < h →
      calculate_bmi w h = .ok ⟨round2 (w / (h / 100) ^ 2)⟩) ∧
    (0 < w → 0 < h → h ≤ 10 →
      calculate_bmi w h = .ok ⟨round2 (w / h ^ 2)⟩) := by
  refine ⟨fun hw hh => ?_, fun hw hh1 hh2 => ?_⟩
  · simp only [calculate_bmi]
    split_ifs with h1
    · rcases h1 with h | h <;> linarith
    · rfl
  · simp only [calculate_bmi]
    split_ifs with h1 h2
    · rcases h1 with h | h <;> linarith
    · exact absurd h2 (not_lt.mpr hh2)
    · rfl

/-- Witness for C1 at weight 70 with heights 175 (cm) and 1.75 (m):
both give BMI 22.86. -/
theorem bmi_formula_app :
    calculate_bmi 70 175 = .ok ⟨2286/100⟩ ∧
    calculate_bmi 70 (7/4) = .ok ⟨2286/100⟩ := by
  refine ⟨Eq.trans ((bmi_formula 70 175).1 (by norm_num) (by norm_num)) ?_,
          Eq.trans ((bmi_formula 70 (7/4)).2 (by norm_num) (by norm_num)
            (by norm_num)) ?_⟩ <;>
    norm_num [round2]

/-- C2: for weight > 0, duration > 0 and a known activity level, the
`/calories` handler returns `round(met * weight * duration / 60, 2)`
with the MET value taken from the fixed table
light ↦ 3.5, moderate ↦ 5.0, vigorous ↦ 8.0. -/
theorem calories_formula (w d : ℚ) (lvl : String) :
    (∀ met : ℚ, 0 < w → 0 < d → met_values lvl = some met →
      calculate_calories w d lvl = .ok ⟨round2 (met * w * d / 60)⟩) ∧
    met_values "light" = some 3.5 ∧
    met_values "moderate" = some 5.0 ∧
    met_values "vigorous" = some 8.0 := by
  refine ⟨fun met hw hd hmet => ?_, rfl, rfl, rfl⟩
  have hpos := met_values_pos hmet
  simp only [calculate_calories, hmet]
  split_ifs with h1 h2
  · exact absurd h1 (by push_neg; exact ⟨by linarith, by linarith⟩)
  · exact absurd h2 (ne_of_gt hpos)
  · rfl

/-- Witness for C2: 70 kg, 30 minutes, moderate (MET 5.0) gives 175.0
burned calories. -/
theorem calories_formula_app :
    calculate_calories 70 30 "moderate" = .ok ⟨175⟩ :=
  Eq.trans
    ((calories_formula 70 30 "moderate").1 5.0 (by norm_num) (by norm_num) rfl)
    (by norm_num [round2])

/-- C3 (counterexample): the status returned for 2000 ml is the string
"You're well hydrated!", not "well hydrated" as the claim states. -/
theorem hydration_middle_status_counterexample :
    (check_hydration 2000).status ≠ "well hydrated" ∧
    (check_hydration 2000).status = "You're well hydrated!" := by
  constructor <;> decide

/-- C3 (amended): the `/hydration` handler maps `water_ml` by three fixed
thresholds — below 2000 to status "Drink more water!", from 2000 to 3000
inclusive to status "You're well hydrated!", above 3000 to status
"Too much water!" — each paired with its fixed advice string. -/
theorem hydration_thresholds (w : ℤ) :
    (w < 2000 →
      check_hydration w = ⟨"Drink more water!", "Aim for at least 2 liters per day."⟩) ∧
    (2000 ≤ w → w ≤ 3000 →
      check_hydration w = ⟨"You're well hydrated!", "Maintain this level of hydration."⟩) ∧
    (3000 < w →
      check_hydration w = ⟨"Too much water!", "Avoid overhydration."⟩) := by
  refine ⟨fun h1 => ?_, fun h2a h2b => ?_, fun h3 => ?_⟩
  · simp only [check_hydration, if_pos h1]
  · simp only [check_hydration]
    rw [if_neg (by omega), if_pos ⟨h2a, h2b⟩]
  · simp only [check_hydration]
    rw [if_neg (by omega), if_neg (by rintro ⟨-, hb⟩; omega)]

/-- Witness for the amended C3 at the claim's three sample inputs 1999,
2000 and 3001. -/
theorem hydration_thresholds_app :
    check_hydration 1999 = ⟨"Drink more water!", "Aim for at least 2 liters per day."⟩ ∧
    check_hydration 2000 = ⟨"You're well hydrated!", "Maintain this level of hydration."⟩ ∧
    check_hydration 3001 = ⟨"Too much water!", "Avoid overhydration."⟩ :=
  ⟨(hydration_thresholds 1999).1 (by decide),
   (hydration_thresholds 2000).2.1 (by decide) (by decide),
   (hydration_thresholds 3001).2.2 (by decide)⟩

/-- C4: the `/sleep-score` handler maps hours by three fixed thresholds —
below 6 to score 50, from 6 to 8 inclusive to score 90, above 8 to score
70 — each paired with its fixed status string. -/
theorem sleep_thresholds (q : ℚ) :
    (q < 6 → sleep_score q = ⟨50, "Too little sleep"⟩) ∧
    (6 ≤ q → q ≤ 8 → sleep_score q = ⟨90, "Healthy sleep"⟩) ∧
    (8 < q → sleep_score q = ⟨70, "Too much sleep"⟩) := by
  refine ⟨fun h1 => ?_, fun h2a h2b => ?_, fun h3 => ?_⟩
  · simp only [sleep_score, if_pos h1]
  · simp only [sleep_score]
    rw [if_neg (not_lt.mpr h2a), if_pos ⟨h2a, h2b⟩]
  · simp only [sleep_score]
    rw [if_neg (by linarith), if_neg (by rintro ⟨-, hb⟩; linarith)]

/-- Witness for C4 at the claim's three sample inputs 5, 7 and 9. -/
theorem sleep_thresholds_app :
    sleep_score 5 = ⟨50, "Too little sleep"⟩ ∧
    sleep_score 7 = ⟨90, "Healthy sleep"⟩ ∧
    sleep_score 9 = ⟨70, "Too much sleep"⟩ :=
  ⟨(sleep_thresholds 5).1 (by norm_num),
   (sleep_thresholds 7).2.1 (by norm_num) (by norm_num),
   (sleep_thresholds 9).2.2 (by norm_num)⟩

/-- C5: the `/bmi` handler returns a 400 error exactly when weight ≤ 0 or
height ≤ 0, and for such inputs it never returns a BMI payload. -/
theorem bmi_error_iff (w h : ℚ) :
    ((∃ e, calculate_bmi w h = .error e ∧ e.status_code = 400) ↔
      (w ≤ 0 ∨ h ≤ 0)) ∧
    ((w ≤ 0 ∨ h ≤ 0) → ∀ b, calculate_bmi w h ≠ .ok b) := by
  constructor
  · constructor
    · rintro ⟨e, he, -⟩
      by_contra hc
      push_neg at hc
      obtain ⟨hw, hh⟩ := hc
      simp only [calculate_bmi] at he
      rw [if_neg (by push_neg; exact ⟨hh, hw⟩)] at he
      exact Except.noConfusion he
    · intro hc
      refine ⟨⟨400, "Weight and height must be greater than zero."⟩, ?_, rfl⟩
      simp only [calculate_bmi]
      rw [if_pos (by tauto)]
  · intro hc b
    simp only [calculate_bmi]
    rw [if_pos (by tauto)]
    exact fun hcon => Except.noConfusion hcon

/-- Witness for C5: weight 0 gives a 400, weight -1 gives no payload. -/
theorem bmi_error_iff_app :
    (∃ e, calculate_bmi 0 180 = .error e ∧ e.status_code = 400) ∧
    ∀ b, calculate_bmi (-1) 180 ≠ .ok b :=
  ⟨(bmi_error_iff 0 180).1.mpr (Or.inl (by norm_num)),
   (bmi_error_iff (-1) 180).2 (Or.inl (by norm_num))⟩

/-- C6: the `/calories` handler returns a 400 error exactly when
weight ≤ 0, duration ≤ 0, or the activity level is unknown to the MET
table; and a nonpositive weight or duration is rejected with the
weight/duration message regardless of the activity level. -/
theorem calories_error_iff (w d : ℚ) (lvl : String) :
    ((∃ e, calculate_calories w d lvl = .error e ∧ e.status_code = 400) ↔
      (w ≤ 0 ∨ d ≤ 0 ∨ met_values lvl = none)) ∧
    ((w ≤ 0 ∨ d ≤ 0) →
      calculate_calories w d lvl =
        .error ⟨400, "Weight and duration must be greater than zero."⟩) := by
  constructor
  · constructor
    · rintro ⟨e, he, -⟩
      by_contra hc
      push_neg at hc
      obtain ⟨hw, hd, hm⟩ := hc
      obtain ⟨met, hmet⟩ := Option.ne_none_iff_exists'.mp hm
      have hpos := met_values_pos hmet
      simp only [calculate_calories, hmet] at he
      rw [if_neg (by push_neg; exact ⟨hd, hw⟩), if_neg (ne_of_gt hpos)] at he
      exact Except.noConfusion he
    · intro hc
      by_cases hwd : d ≤ 0 ∨ w ≤ 0
      · refine ⟨⟨400, "Weight and duration must be greater than zero."⟩, ?_, rfl⟩
        simp only [calculate_calories]
        rw [if_pos hwd]
      · have hm : met_values lvl = none := by tauto
        refine ⟨⟨400, "Invalid activity level. Choose from light, moderate, or vigorous."⟩,
          ?_, rfl⟩
        simp only [calculate_calories, hm]
        rw [if_neg hwd]
  · intro hc
    simp only [calculate_calories]
    rw [if_pos (by tauto)]

/-- Witness for C6: an unknown level gives a 400; a negative weight is
rejected with the weight/duration message even though the level is also
unknown. -/
theorem calories_error_iff_app :
    (∃ e, calculate_calories 70 30 "extreme" = .error e ∧ e.status_code = 400) ∧
    calculate_calories (-1) 30 "unknown" =
      .error ⟨400, "Weight and duration must be greater than zero."⟩ :=
  ⟨(calories_error_iff 70 30 "extreme").1.mpr (Or.inr (Or.inr rfl)),
   (calories_error_iff (-1) 30 "unknown").2 (Or.inl (by norm_num))⟩

/-- C7: with the API key present, the `/weather` handler maps an
upstream timeout to 504, any other transport/protocol failure to 502
with the upstream error text, a body lacking "main" or "weather" to a
500, and a well-shaped body to the `{city, temperature, description}`
payload. -/
theorem weather_error_translation (key : Option String) (city : String)
    (hk : key.getD "" ≠ "") :
    get_weather key city .timeout =
      .error ⟨504, "OpenWeather API request timed out."⟩ ∧
    (∀ m, get_weather key city (.requestError m) =
      .error ⟨502, "Bad Gateway: " ++ m⟩) ∧
    (∀ data, ((data.get? "main").isNone || (data.get? "weather").isNone) = true →
      ∃ d, get_weather key city (.success data) = .error ⟨500, d⟩) ∧
    (∀ data temp desc,
      ((data.get? "main").isNone || (data.get? "weather").isNone) = false →
      (data.get? "main").bind (fun m => m.get? "temp") = some temp →
      ((data.get? "weather").bind (fun w => w.idx? 0)).bind
        (fun w0 => w0.get? "description") = some desc →
      get_weather key city (.success data) = .ok ⟨city, temp, desc⟩) := by
  refine ⟨?_, fun m => ?_, fun data hcond => ?_,
          fun data temp desc hcond htemp hdesc => ?_⟩
  · simp only [get_weather, get_weather_try, if_neg hk]
  · simp only [get_weather, get_weather_try, if_neg hk]
  · refine ⟨"Internal Server Error: " ++ pyStr (.httpExc 500 weatherShapeDetail), ?_⟩
    simp [get_weather, get_weather_try, if_neg hk, hcond]
  · simp [get_weather, get_weather_try, if_neg hk, hcond, htemp, hdesc]

/-- Witness for C7: timeout, transport error, shapeless body `{}`, and a
well-shaped body for the city "Hamburg". -/
theorem weather_error_translation_app :
    get_weather (some "k") "Hamburg" .timeout =
      .error ⟨504, "OpenWeather API request timed out."⟩ ∧
    get_weather (some "k") "Hamburg" (.requestError "boom") =
      .error ⟨502, "Bad Gateway: " ++ "boom"⟩ ∧
    (∃ d, get_weather (some "k") "Hamburg" (.success (.obj [])) =
      .error ⟨500, d⟩) ∧
    get_weather (some "k") "Hamburg"
      (.success (.obj [("main", .obj [("temp", .num 21)]),
        ("weather", .arr [.obj [("description", .str "clear sky")]])])) =
      .ok ⟨"Hamburg", .num 21, .str "clear sky"⟩ := by
  have h := weather_error_translation (some "k") "Hamburg" (by decide)
  exact ⟨h.1, h.2.1 "boom", h.2.2.1 (.obj []) rfl,
    h.2.2.2 _ (.num 21) (.str "clear sky") rfl rfl rfl⟩

/-- C8: if either required environment credential is absent (or empty),
the module-level startup validation fails with an error naming the
missing variables, so the process never reaches route setup. -/
theorem startup_env_check (env : String → Option String)
    (h : (env "OPENWEATHER_KEY").getD "" = "" ∨
         (env "OPENAI_API_KEY").getD "" = "") :
    missing_vars env ≠ [] ∧
    startup_check env =
      .error ("Missing required environment variables: " ++
        String.intercalate ", " (missing_vars env)) ∧
    ∀ v ∈ required_env_vars, (env v).getD "" = "" → v ∈ missing_vars env := by
  have hmem : ∀ v ∈ required_env_vars, (env v).getD "" = "" →
      v ∈ missing_vars env := by
    intro v hv hempty
    simp only [missing_vars, List.mem_filter, beq_iff_eq]
    exact ⟨hv, hempty⟩
  have hne : missing_vars env ≠ [] := by
    rcases h with h | h
    · exact List.ne_nil_of_mem (hmem "OPENWEATHER_KEY" (by simp [required_env_vars]) h)
    · exact List.ne_nil_of_mem (hmem "OPENAI_API_KEY" (by simp [required_env_vars]) h)
  refine ⟨hne, ?_, hmem⟩
  simp only [startup_check, if_neg hne]

/-- Witness for C8 in an empty environment: both variables are reported
missing and startup fails. -/
theorem startup_env_check_app :
    missing_vars (fun _ => none) ≠ [] ∧
    startup_check (fun _ => none) =
      .error ("Missing required environment variables: " ++
        String.intercalate ", " (missing_vars (fun _ => none))) ∧
    ∀ v ∈ required_env_vars,
      ((fun _ => (none : Option String)) v).getD "" = "" →
      v ∈ missing_vars (fun _ => none) :=
  startup_env_check (fun _ => none) (Or.inl rfl)

/-- C9: the `/hydration` and `/sleep-score` handlers are total on all
integer/rational inputs, always returning one of their three fixed
payloads, with every value below the first threshold (negative ones
included) mapped to the first payload. -/
theorem handlers_total :
    (∀ w : ℤ,
      (check_hydration w = ⟨"Drink more water!", "Aim for at least 2 liters per day."⟩ ∨
       check_hydration w = ⟨"You're well hydrated!", "Maintain this level of hydration."⟩ ∨
       check_hydration w = ⟨"Too much water!", "Avoid overhydration."⟩) ∧
      (w < 2000 →
        check_hydration w = ⟨"Drink more water!", "Aim for at least 2 liters per day."⟩)) ∧
    (∀ q : ℚ,
      (sleep_score q = ⟨50, "Too little sleep"⟩ ∨
       sleep_score q = ⟨90, "Healthy sleep"⟩ ∨
       sleep_score q = ⟨70, "Too much sleep"⟩) ∧
      (q < 6 → sleep_score q = ⟨50, "Too little sleep"⟩)) := by
  constructor
  · intro w
    constructor
    · simp only [check_hydration]
      split_ifs <;>
        first
        | exact Or.inl rfl
        | exact Or.inr (Or.inl rfl)
        | exact Or.inr (Or.inr rfl)
    · intro hlt
      simp only [check_hydration, if_pos hlt]
  · intro q
    constructor
    · simp only [sleep_score]
      split_ifs <;>
        first
        | exact Or.inl rfl
        | exact Or.inr (Or.inl rfl)
        | exact Or.inr (Or.inr rfl)
    · intro hlt
      simp only [sleep_score, if_pos hlt]

/-- Witness for C9 at the negative inputs -5 ml and -1 hours. -/
theorem handlers_total_app :
    check_hydration (-5) = ⟨"Drink more water!", "Aim for at least 2 liters per day."⟩ ∧
    sleep_score (-1) = ⟨50, "Too little sleep"⟩ :=
  ⟨(handlers_total.1 (-5)).2 (by decide),
   (handlers_total.2 (-1)).2 (by norm_num)⟩

/-- C10: in both proxy handlers, the shape-check `HTTPException` with
status 500 raised inside the `try` block is caught by the final
catch-all clause and re-raised as a 500 whose detail carries the
"Internal Server Error: " prefix; the original shape detail string is
never returned as-is. -/
theorem shape_error_reraised :
    (∀ (key : Option String) (city : String) (u : UpstreamResult),
      key.getD "" ≠ "" →
      get_weather_try city u = .error (.httpExc 500 weatherShapeDetail) →
      get_weather key city u =
        .error ⟨500, "Internal Server Error: " ++
          pyStr (.httpExc 500 weatherShapeDetail)⟩) ∧
    (∀ (request : String) (r : OpenAIResult),
      ask_openai_try request r = .error (.httpExc 500 openaiShapeDetail) →
      ask_openai request r =
        .error ⟨500, "Internal Server Error: " ++
          pyStr (.httpExc 500 openaiShapeDetail)⟩) ∧
    ("Internal Server Error: " ++ pyStr (.httpExc 500 weatherShapeDetail) ≠
      weatherShapeDetail) ∧
    ("Internal Server Error: " ++ pyStr (.httpExc 500 openaiShapeDetail) ≠
      openaiShapeDetail) := by
  refine ⟨fun key city u hk htry => ?_, fun request r htry => ?_, ?_, ?_⟩
  · simp only [get_weather, if_neg hk, htry]
  · simp only [ask_openai, htry]
  · decide
  · decide

/-- Witness for C10: the empty JSON object `{}` triggers the shape check
in both handlers and the caller sees the re-raised, prefixed 500. -/
theorem shape_error_reraised_app :
    get_weather (some "k") "Oslo" (.success (.obj [])) =
      .error ⟨500, "Internal Server Error: " ++
        pyStr (.httpExc 500 weatherShapeDetail)⟩ ∧
    ask_openai "hi" (.success (.obj [])) =
      .error ⟨500, "Internal Server Error: " ++
        pyStr (.httpExc 500 openaiShapeDetail)⟩ :=
  ⟨shape_error_reraised.1 (some "k") "Oslo" (.success (.obj [])) (by decide) rfl,
   shape_error_reraised.2.1 "hi" (.success (.obj [])) rfl⟩

end HealthApp
